import Mathlib

/-!
Shallow embedding of the travis repository snippet:
  * `src/modules/vm/ethereum/api.go` — the net / cmt / stake JSON-RPC services;
  * `src/unnamed/part_000` — the `init` CLI command (package `commands`).

External library functions (go-wire serialization, the tendermint RPC client,
the go-ethereum account manager, the cosmos-sdk key builders, …) are fields of
an explicit environment record; the code under verification is translated
line by line on top of them.  Machine integers are modelled as `Nat`/`Int`
with explicit reductions modulo 2^w where the Go code can overflow.
-/

namespace Travis

/-- Byte strings ([]byte) are lists of naturals; the Go code never inspects
individual bytes except where modelled concretely below. -/
abbrev Bytes := List Nat

/-- Stand-in for `crypto.PubKey` (tendermint go-crypto), produced by
`stake.GetPubKey`; the RPC layer treats it as opaque data. -/
structure PubKey where
  raw : Nat
deriving DecidableEq, Repr

/-- Stand-in for `sdk.Actor` (cosmos-sdk): the RPC layer only builds actors
through `auth.SigPerm` / `commands.ParseActor` / `coin.ChainAddr` and passes
them along, so the representation is opaque. -/
structure Actor where
  raw : Nat
deriving DecidableEq, Repr

/-- Stand-in for a signed go-ethereum transaction (`*types.Transaction`
returned by `wallet.SignTx`). -/
structure EthSignedTx where
  raw : Nat
deriving DecidableEq, Repr

/-- Stand-in for `*ctypes.ResultBroadcastTxCommit`. -/
structure ResultBroadcastTxCommit where
  raw : Nat
deriving DecidableEq, Repr

/-- Stand-in for `*ctypes.ResultTx`. -/
structure ResultTx where
  raw : Nat
deriving DecidableEq, Repr

/-- The unsigned go-ethereum transaction built by `StakeRPCService.sign` via
`types.NewTransaction(0, common.Address([20]byte{}), big.NewInt(0),
big.NewInt(0), big.NewInt(0), data.SignBytes())`. -/
structure EthTxParams where
  nonce : Nat
  toAddr : Bytes
  amount : Int
  gasLimit : Int
  gasPrice : Int
  payload : Bytes
deriving DecidableEq, Repr

/-- `types.NewTransaction` as used by `sign`: all numeric fields zero, the
recipient is the zero address, the payload carries the sign bytes. -/
def newSignableEthTx (payload : Bytes) : EthTxParams :=
  { nonce := 0
    toAddr := List.replicate 20 0
    amount := 0
    gasLimit := 0
    gasPrice := 0
    payload := payload }

/-- Stand-in for `stake.Candidate` (travis stake module, decoded by go-wire). -/
structure Candidate where
  raw : Nat
deriving DecidableEq, Repr

/-- Stand-in for `stake.Slot` (travis stake module, decoded by go-wire). -/
structure Slot where
  raw : Nat
deriving DecidableEq, Repr

/-- Stand-in for `stake.SlotDelegate` (travis stake module). -/
structure SlotDelegate where
  raw : Nat
deriving DecidableEq, Repr

/-- The part of `*ctypes.ResultABCIQuery` that `get` reads:
`resp.Response.Value` and `resp.Response.Height`. -/
structure AbciResponse where
  value : Bytes
  height : Int
deriving DecidableEq, Repr

/-- The part of the tendermint block that `GetTransactionFromBlock` reads:
the `NumTxs` int64 header field and the transaction list. -/
structure TmBlock where
  numTxs : Int
  txs : List Bytes
deriving DecidableEq, Repr

/-- Stand-in for `*ctypes.ResultBlock`. -/
structure ResultBlock where
  block : TmBlock
deriving DecidableEq, Repr

/-- The inner stake transactions built by the `prepare*Tx` methods from the
request arguments (constructors `stake.NewTxDeclare`, `stake.NewTxProposeSlot`,
`stake.NewTxAcceptSlot`, `stake.NewTxWithdrawSlot`, `stake.NewTxCancelSlot`). -/
inductive StakeTx where
  | txDeclare (pubKey : PubKey)
  | txProposeSlot (pubKey : PubKey) (amount : Int) (proposedRoi : Int)
  | txAcceptSlot (amount : Int) (slotId : String)
  | txWithdrawSlot (amount : Int) (slotId : String)
  | txCancelSlot (pubKey : PubKey) (slotId : String)
deriving DecidableEq, Repr

/-- `sdk.Tx` as this snippet builds it: a stake payload, wrapped by
`nonce.NewTx`, `base.NewChainTx` and `auth.NewSig(..).Wrap()`.  The signature
wrapper stores the signed ethereum transaction once `Sign` has run
(`none` before signing, `some` after). -/
inductive SdkTx where
  | stakeTx (t : StakeTx)
  | nonceTx (sequence : Nat) (signers : List Actor) (inner : SdkTx)
  | chainTx (chainID : String) (expiresAt : Nat) (inner : SdkTx)
  | sig (inner : SdkTx) (signature : Option EthSignedTx)
deriving DecidableEq, Repr

/-- Environment of the stake/cmt RPC services: the `Backend` state plus every
external library call `api.go` makes.  Each field mirrors exactly one external
function (named in its comment). -/
structure StakeEnv where
  /-- `s.backend.chainID`. -/
  chainID : String
  /-- `stake.GetPubKey` (travis stake module; parses a hex pubkey string). -/
  getPubKey : String → Except String PubKey
  /-- byte view of `common.HexToAddress address` (go-ethereum). -/
  hexToAddress : String → Bytes
  /-- `auth.SigPerm` (travis auth module). -/
  sigPerm : Bytes → Actor
  /-- `stack.PrefixedKey` (cosmos-sdk). -/
  prefixedKey : String → Bytes → Bytes
  /-- `nonce.NameNonce` (travis nonce module). -/
  nameNonce : String
  /-- `nonce.GetSeqKey` (travis nonce module). -/
  getSeqKey : List Actor → Bytes
  /-- `s.backend.localClient.ABCIQuery path key`, reduced to the
  `result.Response.Value` bytes on success. -/
  abciQuery : String → Bytes → Except String Bytes
  /-- `tx.ValidateBasic()` (cosmos-sdk wrapper chain). -/
  validateBasic : SdkTx → Except String Unit
  /-- `data.SignBytes()` of the `auth.Sig` wrapper (travis auth module). -/
  signBytes : SdkTx → Bytes
  /-- `s.am.Find(account)` followed by `wallet.SignTx(account, ethTx,
  big.NewInt(15))` (go-ethereum accounts): address bytes and the unsigned
  transaction in, the signed transaction out. -/
  walletSignTx : Bytes → EthTxParams → Nat → Except String EthSignedTx
  /-- `data.Sign(signed)` of the `auth.Sig` wrapper (may reject, e.g. if
  already signed); on success the wrapper stores the signed transaction. -/
  dataSign : EthSignedTx → Except String Unit
  /-- `wire.BinaryBytes` (go-wire) on a full `sdk.Tx`. -/
  wireBytes : SdkTx → Bytes
  /-- `s.backend.localClient.BroadcastTxCommit`. -/
  broadcastTxCommit : Bytes → Except String ResultBroadcastTxCommit
  /-- `s.backend.localClient.ABCIQueryWithOptions path key opts`: the Go call
  returns a response pointer and an error independently (`get` inspects the
  response even when an error is present), hence the pair of options. -/
  abciQueryWithOptions : String → Bytes → Int → Option AbciResponse × Option String
  /-- `stake.Name()` (travis stake module). -/
  stakeName : String
  /-- `stake.CandidatesPubKeysKey`. -/
  candidatesPubKeysKey : Bytes
  /-- `stake.GetCandidateKey`. -/
  getCandidateKey : PubKey → Bytes
  /-- `stake.GetDelegatorBondsKey`. -/
  getDelegatorBondsKey : Actor → Bytes
  /-- `commands.ParseActor` (cosmos-sdk client commands). -/
  parseActor : String → Except String Actor
  /-- `coin.ChainAddr` (travis coin module). -/
  chainAddr : Actor → Actor
  /-- `wire.ReadBinaryBytes` into `*[]crypto.PubKey`. -/
  decodePubKeys : Bytes → Except String (List PubKey)
  /-- `wire.ReadBinaryBytes` into `*stake.Candidate`. -/
  decodeCandidate : Bytes → Except String Candidate
  /-- `wire.ReadBinaryBytes` into `*stake.Slot`. -/
  decodeSlot : Bytes → Except String Slot
  /-- `wire.ReadBinaryBytes` into `*[]*stake.SlotDelegate`. -/
  decodeSlotDelegates : Bytes → Except String (List SlotDelegate)
  /-- `s.backend.localClient.Block(&h)`. -/
  blockAt : Int → Except String ResultBlock
  /-- `s.backend.localClient.Tx(bkey, false)`. -/
  txLookup : Bytes → Except String ResultTx
  /-- `tx.Hash()` on a raw tendermint transaction. -/
  txHash : Bytes → Bytes

/-- `getChainID` (api.go:120-126). -/
def getChainID (env : StakeEnv) : Except String String :=
  if env.chainID = "" then
    Except.error "Empty chain id. Please wait for tendermint to finish starting up. "
  else
    Except.ok env.chainID

/-- `getSignerAct` (api.go:348-353): `auth.SigPerm(common.HexToAddress(address).Bytes())`. -/
def getSignerAct (env : StakeEnv) (address : String) : Actor :=
  env.sigPerm (env.hexToAddress address)

/-- `wire.ReadBinaryBytes(value, sequence)` with `sequence : *uint32`:
go-wire encodes a uint32 as exactly 4 big-endian bytes and rejects any other
length (EOF / leftover bytes). -/
def readBinaryUint32 (bz : Bytes) : Except String Nat :=
  match bz with
  | [b0, b1, b2, b3] =>
      Except.ok ((b0 % 256) * 16777216 + (b1 % 256) * 65536 + (b2 % 256) * 256 + b3 % 256)
  | _ => Except.error "invalid uint32 encoding"

/-- `getSequence` (api.go:289-300).  The Go function writes through the
`*uint32` out-parameter; here the updated value is returned: unchanged when
the stored value is empty, the decoded stored value otherwise. -/
def getSequence (env : StakeEnv) (signers : List Actor) (sequence : Nat) :
    Except String Nat :=
  let key := env.prefixedKey env.nameNonce (env.getSeqKey signers)
  match env.abciQuery "/key" key with
  | Except.error e => Except.error e
  | Except.ok value =>
      if value.length = 0 then Except.ok sequence
      else readBinaryUint32 value

/-- `sign` (api.go:322-341): build the zero ethereum transaction around
`data.SignBytes()`, sign it with the wallet for `common.HexToAddress(address)`
and chain id 15, then store it through `data.Sign`. -/
def signWithWallet (env : StakeEnv) (tx : SdkTx) (address : String) :
    Except String EthSignedTx :=
  let ethTx := newSignableEthTx (env.signBytes tx)
  let addr := env.hexToAddress address
  match env.walletSignTx addr ethTx 15 with
  | Except.error e => Except.error e
  | Except.ok signed =>
      match env.dataSign signed with
      | Except.error e => Except.error e
      | Except.ok _ => Except.ok signed

/-- `signTx` (api.go:303-320): `ValidateBasic` first; then, because only the
`auth.Sig` wrapper satisfies the `keys.Signable` type assertion on
`tx.Unwrap()`, signing happens exactly on `SdkTx.sig` values (storing the
signed ethereum transaction in the wrapper). -/
def signTx (env : StakeEnv) (tx : SdkTx) (address : String) :
    Except String SdkTx :=
  match env.validateBasic tx with
  | Except.error e => Except.error e
  | Except.ok _ =>
      match tx with
      | SdkTx.sig inner _ =>
          if address = "" then Except.error "address is required to sign tx"
          else
            match signWithWallet env (SdkTx.sig inner none) address with
            | Except.error e => Except.error e
            | Except.ok signed => Except.ok (SdkTx.sig inner (some signed))
      | t => Except.ok t

/-- `wrapAndSignTx` (api.go:260-287).  `sequence` is a Go `uint32`, so the
`sequence <= 0` test means `= 0` and `sequence + 1` wraps modulo 2^32. -/
def wrapAndSignTx (env : StakeEnv) (tx : SdkTx) (address : String)
    (sequence : Nat) : Except String SdkTx :=
  let signers := [getSignerAct env address]
  let seqRes : Except String Nat :=
    if sequence ≤ 0 then
      match getSequence env signers sequence with
      | Except.error e => Except.error e
      | Except.ok s => Except.ok ((s + 1) % 4294967296)
    else Except.ok sequence
  match seqRes with
  | Except.error e => Except.error e
  | Except.ok seq =>
      match getChainID env with
      | Except.error e => Except.error e
      | Except.ok chainID =>
          signTx env (SdkTx.sig (SdkTx.chainTx chainID 0
            (SdkTx.nonceTx seq signers tx)) none) address

/-- `broadcastTx` (api.go:343-346): serialize with go-wire and hand the bytes
to `BroadcastTxCommit`.  The second component records the bytes of every
`BroadcastTxCommit` call made. -/
def broadcastTx (env : StakeEnv) (tx : SdkTx) :
    Except String ResultBroadcastTxCommit × List Bytes :=
  let key := env.wireBytes tx
  (env.broadcastTxCommit key, [key])

/-- `DeclareCandidacyArgs` (api.go:148-152). -/
structure DeclareCandidacyArgs where
  Sequence : Nat
  From : String
  PubKey : String
deriving DecidableEq, Repr

/-- `prepareDeclareCandidacyTx` (api.go:162-169). -/
def prepareDeclareCandidacyTx (env : StakeEnv) (args : DeclareCandidacyArgs) :
    Except String SdkTx :=
  match env.getPubKey args.PubKey with
  | Except.error e => Except.error e
  | Except.ok pubKey =>
      wrapAndSignTx env (SdkTx.stakeTx (StakeTx.txDeclare pubKey)) args.From args.Sequence

/-- `DeclareCandidacy` (api.go:154-160), with the broadcast-call trace. -/
def DeclareCandidacy (env : StakeEnv) (args : DeclareCandidacyArgs) :
    Except String ResultBroadcastTxCommit × List Bytes :=
  match prepareDeclareCandidacyTx env args with
  | Except.error e => (Except.error e, [])
  | Except.ok tx => broadcastTx env tx

/-- `ProposeSlotArgs` (api.go:171-177). -/
structure ProposeSlotArgs where
  Sequence : Nat
  From : String
  PubKey : String
  Amount : Int
  ProposedRoi : Int
deriving DecidableEq, Repr

/-- `prepareProposeSlotTx` (api.go:187-194). -/
def prepareProposeSlotTx (env : StakeEnv) (args : ProposeSlotArgs) :
    Except String SdkTx :=
  match env.getPubKey args.PubKey with
  | Except.error e => Except.error e
  | Except.ok pubKey =>
      wrapAndSignTx env
        (SdkTx.stakeTx (StakeTx.txProposeSlot pubKey args.Amount args.ProposedRoi))
        args.From args.Sequence

/-- `ProposeSlot` (api.go:179-185). -/
def ProposeSlot (env : StakeEnv) (args : ProposeSlotArgs) :
    Except String ResultBroadcastTxCommit × List Bytes :=
  match prepareProposeSlotTx env args with
  | Except.error e => (Except.error e, [])
  | Except.ok tx => broadcastTx env tx

/-- `AcceptSlotArgs` (api.go:196-201). -/
structure AcceptSlotArgs where
  Sequence : Nat
  From : String
  Amount : Int
  SlotId : String
deriving DecidableEq, Repr

/-- `prepareAcceptSlotTx` (api.go:211-214). -/
def prepareAcceptSlotTx (env : StakeEnv) (args : AcceptSlotArgs) :
    Except String SdkTx :=
  wrapAndSignTx env (SdkTx.stakeTx (StakeTx.txAcceptSlot args.Amount args.SlotId))
    args.From args.Sequence

/-- `AcceptSlot` (api.go:203-209). -/
def AcceptSlot (env : StakeEnv) (args : AcceptSlotArgs) :
    Except String ResultBroadcastTxCommit × List Bytes :=
  match prepareAcceptSlotTx env args with
  | Except.error e => (Except.error e, [])
  | Except.ok tx => broadcastTx env tx

/-- `WithdrawSlotArgs` (api.go:216-221). -/
structure WithdrawSlotArgs where
  Sequence : Nat
  From : String
  Amount : Int
  SlotId : String
deriving DecidableEq, Repr

/-- `prepareWithdrawSlotTx` (api.go:231-234). -/
def prepareWithdrawSlotTx (env : StakeEnv) (args : WithdrawSlotArgs) :
    Except String SdkTx :=
  wrapAndSignTx env (SdkTx.stakeTx (StakeTx.txWithdrawSlot args.Amount args.SlotId))
    args.From args.Sequence

/-- `WithdrawSlot` (api.go:223-229). -/
def WithdrawSlot (env : StakeEnv) (args : WithdrawSlotArgs) :
    Except String ResultBroadcastTxCommit × List Bytes :=
  match prepareWithdrawSlotTx env args with
  | Except.error e => (Except.error e, [])
  | Except.ok tx => broadcastTx env tx

/-- `CancelSlotArgs` (api.go:236-241). -/
structure CancelSlotArgs where
  Sequence : Nat
  From : String
  PubKey : String
  SlotId : String
deriving DecidableEq, Repr

/-- `prepareCancelSlotTx` (api.go:251-258). -/
def prepareCancelSlotTx (env : StakeEnv) (args : CancelSlotArgs) :
    Except String SdkTx :=
  match env.getPubKey args.PubKey with
  | Except.error e => Except.error e
  | Except.ok pubKey =>
      wrapAndSignTx env (SdkTx.stakeTx (StakeTx.txCancelSlot pubKey args.SlotId))
        args.From args.Sequence

/-- `CancelSlot` (api.go:243-249). -/
def CancelSlot (env : StakeEnv) (args : CancelSlotArgs) :
    Except String ResultBroadcastTxCommit × List Bytes :=
  match prepareCancelSlotTx env args with
  | Except.error e => (Except.error e, [])
  | Except.ok tx => broadcastTx env tx

/-! ### Net RPC service (api.go:41-67) -/

/-- `NetRPCService` (api.go:41-43); `networkVersion` is a Go `uint64`. -/
structure NetRPCService where
  networkVersion : Nat
deriving DecidableEq, Repr

/-- `NewNetRPCService` (api.go:47-49). -/
def NewNetRPCService (networkVersion : Nat) : NetRPCService :=
  { networkVersion := networkVersion }

/-- `Listening` (api.go:53-55). -/
def NetRPCService.Listening (_ : NetRPCService) : Bool :=
  true

/-- `PeerCount` (api.go:59-61); Go returns `hexutil.Uint(0)`, numerically 0. -/
def NetRPCService.PeerCount (_ : NetRPCService) : Nat :=
  0

/-- `Version` (api.go:65-67): `fmt.Sprintf("%d", s.networkVersion)`, the
decimal rendering. -/
def NetRPCService.Version (s : NetRPCService) : String :=
  toString s.networkVersion

/-! ### Cmt RPC service (api.go:80-104) -/

/-- Outcome of running a Go function that can also panic at runtime: `ok`,
a returned error (paired with a `nil` result in Go), or a runtime panic
(e.g. an out-of-range slice index). -/
inductive GoStep (α : Type) where
  | ok (a : α)
  | err (e : String)
  | panicked
deriving DecidableEq, Repr

/-- `cast.ToInt64` applied to a Go `uint64`: the conversion `int64(v)`,
i.e. two's-complement wrap-around. -/
def int64ofUint64 (n : Nat) : Int :=
  let m := n % 18446744073709551616
  if m < 9223372036854775808 then (m : Int) else (m : Int) - 18446744073709551616

/-- Value of a hex digit character, as `encoding/hex` accepts them. -/
def hexDigitVal (c : Char) : Option Nat :=
  if '0' ≤ c ∧ c ≤ '9' then some (c.toNat - 48)
  else if 'a' ≤ c ∧ c ≤ 'f' then some (c.toNat - 87)
  else if 'A' ≤ c ∧ c ≤ 'F' then some (c.toNat - 55)
  else none

/-- `hex.DecodeString` (Go `encoding/hex`): pairs of hex digits, rejecting
invalid characters and odd-length input. -/
def hexDecodeChars : List Char → Except String Bytes
  | [] => Except.ok []
  | [_] => Except.error "encoding/hex: odd length hex string"
  | c1 :: c2 :: rest =>
      match hexDigitVal c1, hexDigitVal c2 with
      | some hi, some lo =>
          match hexDecodeChars rest with
          | Except.error e => Except.error e
          | Except.ok bs => Except.ok ((hi * 16 + lo) :: bs)
      | _, _ => Except.error "encoding/hex: invalid byte"

/-- Lowercase hex digit character (Go `encoding/hex` alphabet). -/
def hexDigitChar (n : Nat) : Char :=
  if n < 10 then Char.ofNat (48 + n) else Char.ofNat (87 + n)

/-- `hex.EncodeToString` (Go `encoding/hex`): two lowercase digits per byte. -/
def hexEncodeToString (bs : Bytes) : String :=
  String.mk (bs.foldr
    (fun b acc => hexDigitChar (b % 256 / 16) :: hexDigitChar (b % 256 % 16) :: acc) [])

/-- `cmn.StripHex` (tmlibs common): drop a leading "0x" if present. -/
def stripHex (s : String) : String :=
  if s.startsWith "0x" then s.drop 2 else s

/-- `GetBlock` (api.go:80-83). -/
def GetBlock (env : StakeEnv) (height : Nat) : Except String ResultBlock :=
  env.blockAt (int64ofUint64 height)

/-- `GetTransaction` (api.go:85-91). -/
def GetTransaction (env : StakeEnv) (hash : String) : GoStep ResultTx :=
  match hexDecodeChars (stripHex hash).data with
  | Except.error e => GoStep.err e
  | Except.ok bkey =>
      match env.txLookup bkey with
      | Except.error e => GoStep.err e
      | Except.ok r => GoStep.ok r

/-- Go slice indexing `l[i]` with an `int64` index: defined exactly when
`0 <= i < len l`; anything else panics at runtime. -/
def listIndexInt {α : Type} (l : List α) (i : Int) : Option α :=
  if 0 ≤ i then l.get? i.toNat else none

/-- The error text of api.go:100. -/
def noTxMsg (height : Nat) (index : Int) : String :=
  "No transaction in block " ++ toString height ++ ", index " ++ toString index ++ ". "

/-- `GetTransactionFromBlock` (api.go:93-104).  The only bound check is
`index >= block.Block.NumTxs`; the subsequent `block.Block.Txs[index]`
panics when `index` is out of range on the low side. -/
def GetTransactionFromBlock (env : StakeEnv) (height : Nat) (index : Int) :
    GoStep ResultTx :=
  match env.blockAt (int64ofUint64 height) with
  | Except.error e => GoStep.err e
  | Except.ok block =>
      if block.block.numTxs ≤ index then GoStep.err (noTxMsg height index)
      else
        match listIndexInt block.block.txs index with
        | none => GoStep.panicked
        | some txb => GetTransaction env (hexEncodeToString (env.txHash txb))

/-! ### Stake query methods (api.go:355-447) -/

/-- `StakeQueryResult` (api.go:355-358); `Data` is `interface{}` in Go, hence
the type parameter. -/
structure StakeQueryResult (α : Type) where
  height : Int
  data : α
deriving DecidableEq, Repr

/-- `client.ErrNoData()` (cosmos-sdk light client), the fixed no-data error. -/
def errNoData : String :=
  "No data returned for query"

/-- `[]byte(s)` on a Go string: its UTF-8 bytes. -/
def strBytes (s : String) : Bytes :=
  s.toUTF8.toList.map (fun b => b.toNat)

/-- `get` (api.go:439-447): returns the value bytes (absent when the response
pointer is nil), the height, and the error, exactly as the Go triple. -/
def get (env : StakeEnv) (path : String) (key : Bytes) (height : Int) :
    Option Bytes × Int × Option String :=
  match env.abciQueryWithOptions path key height with
  | (none, err) => (none, height, err)
  | (some resp, err) => (some resp.value, resp.height, err)

/-- `getParsed` (api.go:424-437), with the go-wire decode for the target type
passed explicitly (`wire.ReadBinaryBytes(bs, data)` dispatches on the type of
`data`).  Success returns the height together with the decoded payload. -/
def getParsed {α : Type} (env : StakeEnv) (path : String) (key : Bytes)
    (decode : Bytes → Except String α) (height : Nat) : Except String (Int × α) :=
  match get env path key (int64ofUint64 height) with
  | (bs, h, err) =>
      match err with
      | some e => Except.error e
      | none =>
          let bz := bs.getD []
          if bz.length = 0 then Except.error errNoData
          else
            match decode bz with
            | Except.error e => Except.error e
            | Except.ok a => Except.ok (h, a)

/-- `QueryValidators` (api.go:360-369). -/
def QueryValidators (env : StakeEnv) (height : Nat) :
    Except String (StakeQueryResult (List PubKey)) :=
  let key := env.prefixedKey env.stakeName env.candidatesPubKeysKey
  match getParsed env "/key" key env.decodePubKeys height with
  | Except.error e => Except.error e
  | Except.ok (h, pks) => Except.ok { height := h, data := pks }

/-- `QueryValidator` (api.go:371-385). -/
def QueryValidator (env : StakeEnv) (pubkey : String) (height : Nat) :
    Except String (StakeQueryResult Candidate) :=
  match env.getPubKey pubkey with
  | Except.error e => Except.error e
  | Except.ok pk =>
      let key := env.prefixedKey env.stakeName (env.getCandidateKey pk)
      match getParsed env "/key" key env.decodeCandidate height with
      | Except.error e => Except.error e
      | Except.ok (h, candidate) => Except.ok { height := h, data := candidate }

/-- `QuerySlots` (api.go:387-402). -/
def QuerySlots (env : StakeEnv) (address : String) (height : Nat) :
    Except String (StakeQueryResult (List PubKey)) :=
  match env.parseActor address with
  | Except.error e => Except.error e
  | Except.ok delegator0 =>
      let delegator := env.chainAddr delegator0
      let key := env.prefixedKey env.stakeName (env.getDelegatorBondsKey delegator)
      match getParsed env "/key" key env.decodePubKeys height with
      | Except.error e => Except.error e
      | Except.ok (h, candidates) => Except.ok { height := h, data := candidates }

/-- `QuerySlot` (api.go:404-412). -/
def QuerySlot (env : StakeEnv) (slotId : String) (height : Nat) :
    Except String (StakeQueryResult Slot) :=
  match getParsed env "/slot" (strBytes slotId) env.decodeSlot height with
  | Except.error e => Except.error e
  | Except.ok (h, slot) => Except.ok { height := h, data := slot }

/-- `QueryDelegator` (api.go:414-422). -/
def QueryDelegator (env : StakeEnv) (address : String) (height : Nat) :
    Except String (StakeQueryResult (List SlotDelegate)) :=
  match getParsed env "/delegator" (strBytes address) env.decodeSlotDelegates height with
  | Except.error e => Except.error e
  | Except.ok (h, ds) => Except.ok { height := h, data := ds }

/-! ### The `init` command (src/unnamed/part_000, package commands) -/

/-- `FlagChainID` (part_000:22). -/
def FlagChainID : String :=
  "chain-id"

/-- A registered cobra string flag: name, default value, usage text. -/
structure StringFlag where
  name : String
  defValue : String
  usage : String
deriving DecidableEq, Repr

/-- The part of a `*cobra.Command` this code sets (its `RunE` is modelled
separately as `initFiles`). -/
structure CobraCommand where
  use : String
  short : String
  flags : List StringFlag
deriving DecidableEq, Repr

/-- `GetInitCmd` (part_000:27-35). -/
def GetInitCmd : CobraCommand :=
  { use := "init"
    short := "Initialize"
    flags := [{ name := FlagChainID, defValue := "local", usage := "Chain ID" }] }

/-- `InitCmd` (part_000:25). -/
def InitCmd : CobraCommand :=
  GetInitCmd

/-- The on-disk files the command touches: an association list from path to
content, newest entry first. -/
abbrev FileSystem := List (String × String)

/-- Lookup in an association list keyed by strings (newest entry wins). -/
def lookupAssoc {β : Type} : List (String × β) → String → Option β
  | [], _ => none
  | (k, v) :: rest, key => if k = key then some v else lookupAssoc rest key

/-- `cmn.FileExists` / file read, on the modelled file system. -/
def lookupFS (fs : FileSystem) (path : String) : Option String :=
  lookupAssoc fs path

/-- Writing a file (create or overwrite). -/
def writeFS (fs : FileSystem) (path content : String) : FileSystem :=
  (path, content) :: fs

/-- Stand-in for `*types.PrivValidatorFS` (tendermint): the generated key
material, of which this code reads `GetPubKey()`. -/
structure PrivValidatorFS where
  pubKey : PubKey
  secret : Nat
deriving DecidableEq, Repr

/-- `types.GenesisValidator` (tendermint), as built at part_000:63-66. -/
structure GenesisValidator where
  pubKey : PubKey
  power : Int
deriving DecidableEq, Repr

/-- The fields of `types.GenesisDoc` (tendermint) this code sets. -/
structure GenesisDoc where
  chainID : String
  validators : List GenesisValidator
deriving DecidableEq, Repr

/-- The chain-config field of the ethereum genesis this code overrides. -/
structure EthChainConfig where
  chainId : Nat
deriving DecidableEq, Repr

/-- Stand-in for `*core.Genesis` (go-ethereum): the chain config the code
overrides plus the rest of the parsed document, treated as opaque. -/
structure EthGenesis where
  config : EthChainConfig
  rest : Nat
deriving DecidableEq, Repr

/-- Observable node state: regular files, and per-path chaindata LevelDB
databases holding the genesis written by `core.SetupGenesisBlock` together
with its hash. -/
structure NodeState where
  files : FileSystem
  chainData : List (String × (EthGenesis × Nat))
deriving DecidableEq, Repr

/-- Outcome of running a command body: normal return, an error return (with
the state reached so far), or process termination (`panic` /
`ethUtils.Fatalf`). -/
inductive RunResult (α : Type) where
  | ok (a : α)
  | errReturn (e : String) (a : α)
  | fatal (e : String)
deriving DecidableEq, Repr

/-- Environment of the `init` command: configuration values and every
external library call it makes. -/
structure InitEnv where
  /-- `config.TMConfig.PrivValidatorFile()`. -/
  privValidatorFile : String
  /-- `config.TMConfig.GenesisFile()`. -/
  genesisFile : String
  /-- `viper.GetString(FlagChainID)`: the chain-id flag's value. -/
  flagChainID : String
  /-- `types.GenPrivValidatorFS` (fresh random key material). -/
  genPrivValidator : PrivValidatorFS
  /-- serialized content written by `privValidator.Save()`. -/
  savePrivValidator : PrivValidatorFS → String
  /-- `types.LoadPrivValidatorFS` applied to the file content. -/
  loadPrivValidator : String → PrivValidatorFS
  /-- `genDoc.SaveAs` serialization; an error there makes the code panic. -/
  saveGenDoc : GenesisDoc → Except String String
  /-- `context.Args().First()`. -/
  genesisPath : String
  /-- `emtUtils.ParseGenesisOrDefault`. -/
  parseGenesisOrDefault : String → Except String EthGenesis
  /-- `config.EMConfig.EthChainId` (converted to uint64 by the code). -/
  ethChainId : Nat
  /-- `emtUtils.MakeDataDir(context)`. -/
  dataDir : String
  /-- whether `ethdb.NewLDBDatabase` succeeds at the given path. -/
  ldbOpenOk : String → Bool
  /-- `core.SetupGenesisBlock`, yielding the genesis block hash. -/
  setupGenesisBlock : EthGenesis → Except String Nat
  /-- whether `os.MkdirAll` succeeds for the given directory. -/
  mkdirOk : String → Bool
  /-- whether `os.Create` succeeds for the given file path. -/
  createOk : String → Bool
  /-- the error `f.Close()` returns for the given file path, if any. -/
  closeErr : String → Option String

/-- `filepath.Join` of a directory and a clean relative path (linux). -/
def filepathJoin (a b : String) : String :=
  a ++ "/" ++ b

/-- The private validator `initTendermint` works with: loaded from the file
when it exists, freshly generated otherwise (part_000:44-53). -/
def effectivePrivValidator (env : InitEnv) (fs : FileSystem) : PrivValidatorFS :=
  match lookupFS fs env.privValidatorFile with
  | some content => env.loadPrivValidator content
  | none => env.genPrivValidator

/-- The genesis document built at part_000:60-66: the flag's chain id and a
single validator with the private validator's public key and power 10. -/
def mkGenesisDoc (chainID : String) (pv : PrivValidatorFS) : GenesisDoc :=
  { chainID := chainID
    validators := [{ pubKey := pv.pubKey, power := 10 }] }

/-- `initTendermint` (part_000:42-73). -/
def initTendermint (env : InitEnv) (fs : FileSystem) : RunResult FileSystem :=
  let privValidator := effectivePrivValidator env fs
  let fs1 :=
    match lookupFS fs env.privValidatorFile with
    | some _ => fs
    | none => writeFS fs env.privValidatorFile (env.savePrivValidator env.genPrivValidator)
  match lookupFS fs1 env.genesisFile with
  | some _ => RunResult.ok fs1
  | none =>
      match env.saveGenDoc (mkGenesisDoc env.flagChainID privValidator) with
      | Except.error e => RunResult.fatal e
      | Except.ok content => RunResult.ok (writeFS fs1 env.genesisFile content)

/-- The fixed keystore file name (part_000:130). -/
def keystoreFileName : String :=
  "UTC--2016-10-21T22-30-03.071787745Z--7eff122b94897ea5b0e2a9abf47b86337fafebdc"

/-- The fixed keystore file content (part_000:130-141). -/
def keystoreFileContent : String :=
  "\n\x7b\n  \"address\":\"7eff122b94897ea5b0e2a9abf47b86337fafebdc\",\n  \"id\":\"f86a62b4-0621-4616-99af-c4b7f38fcc48\",\"version\":3,\n  \"crypto\":\x7b\n    \"cipher\":\"aes-128-ctr\",\"ciphertext\":\"19de8a919e2f4cbdde2b7352ebd0be8ead2c87db35fc8e4c9acaf74aaaa57dad\",\n    \"cipherparams\":\x7b\"iv\":\"ba2bd370d6c9d5845e92fbc6f951c792\"\x7d,\n    \"kdf\":\"scrypt\",\"kdfparams\":\x7b\"dklen\":32,\"n\":262144,\"p\":1,\"r\":8,\"salt\":\"c7cc2380a96adc9eb31d20bd8d8a7827199e8b16889582c0b9089da6a9f58e84\"\x7d,\n    \"mac\":\"ff2c0caf051ca15d8c43b6f321ec10bd99bd654ddcf12dd1a28f730cc3c13730\"\n  \x7d\n\x7d\n"

/-- `keystoreFilesMap` (part_000:126-142): exactly one fixed keystore file. -/
def keystoreFilesMap : List (String × String) :=
  [(keystoreFileName, keystoreFileContent)]

/-- The keystore seeding loop (part_000:108-121): a failed `os.Create` is
logged and skipped; a failed `f.Close()` aborts with its error; a write
error is only logged. -/
def keystoreLoop (env : InitEnv) (st : NodeState) (dir : String) :
    List (String × String) → RunResult NodeState
  | [] => RunResult.ok st
  | (filename, content) :: rest =>
      let storeFileName := filepathJoin dir filename
      if env.createOk storeFileName then
        let st1 : NodeState := { st with files := writeFS st.files storeFileName content }
        match env.closeErr storeFileName with
        | some e => RunResult.errReturn e st1
        | none => keystoreLoop env st1 dir rest
      else
        keystoreLoop env st dir rest

/-- `initEthermint` (part_000:75-124). -/
def initEthermint (env : InitEnv) (st : NodeState) : RunResult NodeState :=
  match env.parseGenesisOrDefault env.genesisPath with
  | Except.error e => RunResult.fatal ("genesisJSON err: " ++ e)
  | Except.ok genesis0 =>
      let genesis : EthGenesis :=
        { genesis0 with
          config := { genesis0.config with
                      chainId := env.ethChainId % 18446744073709551616 } }
      let dbPath := filepathJoin env.dataDir "vm/chaindata"
      if env.ldbOpenOk dbPath then
        match env.setupGenesisBlock genesis with
        | Except.error e => RunResult.fatal ("failed to write genesis block: " ++ e)
        | Except.ok hash =>
            let st1 : NodeState := { st with chainData := (dbPath, (genesis, hash)) :: st.chainData }
            let keystoreDir := filepathJoin env.dataDir "keystore"
            if env.mkdirOk keystoreDir then
              keystoreLoop env st1 keystoreDir keystoreFilesMap
            else RunResult.fatal "mkdirAll keyStoreDir"
      else RunResult.fatal "could not open database"

/-- `initFiles` (part_000:37-40): run `initTendermint`, then return
`initEthermint()` (a tendermint panic propagates). -/
def initFiles (env : InitEnv) (st : NodeState) : RunResult NodeState :=
  match initTendermint env st.files with
  | RunResult.fatal e => RunResult.fatal e
  | RunResult.errReturn e fs1 => RunResult.errReturn e { st with files := fs1 }
  | RunResult.ok fs1 => initEthermint env { st with files := fs1 }

/-! ### Auxiliary observation functions and concrete test fixtures -/

/-- Whether a `GoStep` outcome is a returned error. -/
def GoStep.isErr {α : Type} : GoStep α → Bool
  | GoStep.err _ => true
  | _ => false

/-- The nonce sequence sitting inside a fully wrapped transaction
(signature wrapper around chain wrapper around nonce wrapper). -/
def nonceSeqOf : SdkTx → Option Nat
  | SdkTx.sig (SdkTx.chainTx _ _ (SdkTx.nonceTx q _ _)) _ => some q
  | _ => none

/-- The registered default value of a named string flag. -/
def flagDefault : List StringFlag → String → Option String
  | [], _ => none
  | f :: rest, n => if f.name = n then some f.defValue else flagDefault rest n

/-- The store key `getSequence` queries for an address's nonce. -/
def nonceQueryKey (env : StakeEnv) (addr : String) : Bytes :=
  env.prefixedKey env.nameNonce (env.getSeqKey [getSignerAct env addr])

/-- A concrete, fully succeeding stake-service environment used to exercise
the theorems on explicit inputs. -/
def baseStakeEnv : StakeEnv :=
  { chainID := "travis-1"
    getPubKey := fun _ => Except.ok { raw := 7 }
    hexToAddress := fun _ => [1, 2]
    sigPerm := fun bs => { raw := bs.length }
    prefixedKey := fun _ k => k
    nameNonce := "nonce"
    getSeqKey := fun _ => [9]
    abciQuery := fun _ _ => Except.ok []
    validateBasic := fun _ => Except.ok ()
    signBytes := fun _ => [3]
    walletSignTx := fun _ _ _ => Except.ok { raw := 5 }
    dataSign := fun _ => Except.ok ()
    wireBytes := fun _ => [4]
    broadcastTxCommit := fun _ => Except.ok { raw := 6 }
    abciQueryWithOptions := fun _ _ _ => (some { value := [1], height := 12 }, none)
    stakeName := "stake"
    candidatesPubKeysKey := [2]
    getCandidateKey := fun _ => [3]
    getDelegatorBondsKey := fun _ => [4]
    parseActor := fun _ => Except.ok { raw := 8 }
    chainAddr := fun a => a
    decodePubKeys := fun _ => Except.ok []
    decodeCandidate := fun _ => Except.ok { raw := 1 }
    decodeSlot := fun _ => Except.ok { raw := 2 }
    decodeSlotDelegates := fun _ => Except.ok []
    blockAt := fun _ => Except.ok { block := { numTxs := 1, txs := [[0]] } }
    txLookup := fun _ => Except.ok { raw := 3 }
    txHash := fun b => b }

/-- `baseStakeEnv` with a failing public-key parse. -/
def envBadPubKey : StakeEnv :=
  { baseStakeEnv with getPubKey := fun _ => Except.error "invalid pubkey" }

/-- `baseStakeEnv` before tendermint has reported a chain id. -/
def envNoChainID : StakeEnv :=
  { baseStakeEnv with chainID := "" }

/-- `baseStakeEnv` whose nonce store holds the largest uint32. -/
def envMaxSeq : StakeEnv :=
  { baseStakeEnv with abciQuery := fun _ _ => Except.ok [255, 255, 255, 255] }

/-- `baseStakeEnv` whose ABCI query finds an empty value for every key. -/
def envEmptyValue : StakeEnv :=
  { baseStakeEnv with
    abciQueryWithOptions := fun _ _ _ => (some { value := [], height := 9 }, none) }

/-- `baseStakeEnv` whose consensus client cannot fetch blocks. -/
def envBlockErr : StakeEnv :=
  { baseStakeEnv with blockAt := fun _ => Except.error "no block" }

/-- A concrete, fully succeeding `init` environment. -/
def baseInitEnv : InitEnv :=
  { privValidatorFile := "priv_validator.json"
    genesisFile := "genesis.json"
    flagChainID := "local"
    genPrivValidator := { pubKey := { raw := 11 }, secret := 1 }
    savePrivValidator := fun pv => "pv:" ++ toString pv.pubKey.raw
    loadPrivValidator := fun _ => { pubKey := { raw := 11 }, secret := 1 }
    saveGenDoc := fun gd => Except.ok ("gen:" ++ gd.chainID)
    genesisPath := ""
    parseGenesisOrDefault := fun _ => Except.ok { config := { chainId := 1 }, rest := 0 }
    ethChainId := 15
    dataDir := "data"
    ldbOpenOk := fun _ => true
    setupGenesisBlock := fun _ => Except.ok 99
    mkdirOk := fun _ => true
    createOk := fun _ => true
    closeErr := fun _ => none }

/-! ## Helper lemmas -/

theorem lookupFS_writeFS (fs : FileSystem) (p q c : String) :
    lookupFS (writeFS fs p c) q = if p = q then some c else lookupFS fs q :=
  rfl

theorem getChainID_ok {env : StakeEnv} {c : String}
    (h : getChainID env = Except.ok c) : c = env.chainID := by
  unfold getChainID at h
  split at h
  · exact Except.noConfusion h
  · exact (Except.ok.inj h).symm

theorem signWithWallet_ok {env : StakeEnv} {tx : SdkTx} {addr : String} {σ : EthSignedTx}
    (h : signWithWallet env tx addr = Except.ok σ) :
    env.walletSignTx (env.hexToAddress addr)
      (newSignableEthTx (env.signBytes tx)) 15 = Except.ok σ ∧
    env.dataSign σ = Except.ok () := by
  simp only [signWithWallet] at h
  split at h
  · exact Except.noConfusion h
  · rename_i signed hw
    split at h
    · exact Except.noConfusion h
    · rename_i u hd
      cases u
      cases Except.ok.inj h
      exact ⟨hw, hd⟩

theorem signStep_ok {env : StakeEnv} {inner : SdkTx} {addr : String} {wtx : SdkTx}
    (h : signTx env (SdkTx.sig inner none) addr = Except.ok wtx) :
    ∃ σ, wtx = SdkTx.sig inner (some σ) ∧
      env.walletSignTx (env.hexToAddress addr)
        (newSignableEthTx (env.signBytes (SdkTx.sig inner none))) 15 = Except.ok σ ∧
      env.dataSign σ = Except.ok () ∧ addr ≠ "" := by
  unfold signTx at h
  split at h
  · exact Except.noConfusion h
  · dsimp only at h
    split at h
    · exact Except.noConfusion h
    · rename_i hne
      split at h
      · exact Except.noConfusion h
      · rename_i signed hsw
        cases Except.ok.inj h
        obtain ⟨hw, hd⟩ := signWithWallet_ok hsw
        exact ⟨signed, rfl, hw, hd, hne⟩

theorem wrapAndSignTx_ok {env : StakeEnv} {tx : SdkTx} {addr : String}
    {sequence : Nat} {wtx : SdkTx}
    (h : wrapAndSignTx env tx addr sequence = Except.ok wtx) :
    ∃ seq σ,
      wtx = SdkTx.sig (SdkTx.chainTx env.chainID 0
        (SdkTx.nonceTx seq [getSignerAct env addr] tx)) (some σ) ∧
      env.walletSignTx (env.hexToAddress addr)
        (newSignableEthTx (env.signBytes (SdkTx.sig (SdkTx.chainTx env.chainID 0
          (SdkTx.nonceTx seq [getSignerAct env addr] tx)) none))) 15 = Except.ok σ ∧
      env.dataSign σ = Except.ok () ∧ addr ≠ "" ∧
      ((0 < sequence ∧ seq = sequence) ∨
        (sequence = 0 ∧ ∃ value,
          env.abciQuery "/key" (nonceQueryKey env addr) = Except.ok value ∧
          ((value = [] ∧ seq = 1) ∨
            (∃ stored, readBinaryUint32 value = Except.ok stored ∧
              seq = (stored + 1) % 4294967296)))) := by
  simp only [wrapAndSignTx] at h
  split at h
  · exact Except.noConfusion h
  · rename_i seq hseq
    split at h
    · exact Except.noConfusion h
    · rename_i c hc
      cases getChainID_ok hc
      obtain ⟨σ, hwtx, hw, hd, hne⟩ := signStep_ok h
      refine ⟨seq, σ, hwtx, hw, hd, hne, ?_⟩
      by_cases hs : sequence = 0
      · subst hs
        rw [if_pos (Nat.le_refl 0)] at hseq
        cases hget : getSequence env [getSignerAct env addr] 0 with
        | error e =>
            rw [hget] at hseq
            exact Except.noConfusion hseq
        | ok s =>
            rw [hget] at hseq
            cases Except.ok.inj hseq
            right
            refine ⟨rfl, ?_⟩
            simp only [getSequence] at hget
            split at hget
            · exact Except.noConfusion hget
            · rename_i value hv
              refine ⟨value, hv, ?_⟩
              split at hget
              · rename_i hlen
                cases Except.ok.inj hget
                exact Or.inl ⟨List.eq_nil_of_length_eq_zero hlen, by decide⟩
              · exact Or.inr ⟨s, hget, rfl⟩
      · rw [if_neg (by omega)] at hseq
        cases Except.ok.inj hseq
        exact Or.inl ⟨Nat.pos_of_ne_zero hs, rfl⟩

/-! ## Claim theorems -/

/-- C8: the net RPC service is constant: for every instance, `Listening`
returns `true`, `PeerCount` returns 0, and `Version` returns the decimal
string rendering of the `networkVersion` value the service was constructed
with. -/
theorem net_rpc_service_constant (v : Nat) :
    (NewNetRPCService v).Listening = true ∧
    (NewNetRPCService v).PeerCount = 0 ∧
    (NewNetRPCService v).Version = toString v :=
  ⟨rfl, rfl, rfl⟩

/-- C1: every stake submission RPC method that returns without error handed
`BroadcastTxCommit` exactly the go-wire serialization of the inner stake
transaction built from the request arguments, wrapped in a nonce transaction
whose signer list is the single actor derived from the `From` address, then
in a chain transaction with the backend's chain id and expiration height 0,
then in a signature wrapper signed for the `From` address. -/
theorem stake_submission_broadcast_bytes :
    (∀ env args res trace, DeclareCandidacy env args = (Except.ok res, trace) →
      ∃ pk seq σ,
        env.getPubKey args.PubKey = Except.ok pk ∧
        trace = [env.wireBytes (SdkTx.sig (SdkTx.chainTx env.chainID 0
          (SdkTx.nonceTx seq [getSignerAct env args.From]
            (SdkTx.stakeTx (StakeTx.txDeclare pk)))) (some σ))] ∧
        env.walletSignTx (env.hexToAddress args.From)
          (newSignableEthTx (env.signBytes (SdkTx.sig (SdkTx.chainTx env.chainID 0
            (SdkTx.nonceTx seq [getSignerAct env args.From]
              (SdkTx.stakeTx (StakeTx.txDeclare pk)))) none))) 15 = Except.ok σ ∧
        env.dataSign σ = Except.ok ()) ∧
    (∀ env args res trace, ProposeSlot env args = (Except.ok res, trace) →
      ∃ pk seq σ,
        env.getPubKey args.PubKey = Except.ok pk ∧
        trace = [env.wireBytes (SdkTx.sig (SdkTx.chainTx env.chainID 0
          (SdkTx.nonceTx seq [getSignerAct env args.From]
            (SdkTx.stakeTx (StakeTx.txProposeSlot pk args.Amount args.ProposedRoi)))) (some σ))] ∧
        env.walletSignTx (env.hexToAddress args.From)
          (newSignableEthTx (env.signBytes (SdkTx.sig (SdkTx.chainTx env.chainID 0
            (SdkTx.nonceTx seq [getSignerAct env args.From]
              (SdkTx.stakeTx (StakeTx.txProposeSlot pk args.Amount args.ProposedRoi)))) none))) 15 = Except.ok σ ∧
        env.dataSign σ = Except.ok ()) ∧
    (∀ env args res trace, AcceptSlot env args = (Except.ok res, trace) →
      ∃ seq σ,
        trace = [env.wireBytes (SdkTx.sig (SdkTx.chainTx env.chainID 0
          (SdkTx.nonceTx seq [getSignerAct env args.From]
            (SdkTx.stakeTx (StakeTx.txAcceptSlot args.Amount args.SlotId)))) (some σ))] ∧
        env.walletSignTx (env.hexToAddress args.From)
          (newSignableEthTx (env.signBytes (SdkTx.sig (SdkTx.chainTx env.chainID 0
            (SdkTx.nonceTx seq [getSignerAct env args.From]
              (SdkTx.stakeTx (StakeTx.txAcceptSlot args.Amount args.SlotId)))) none))) 15 = Except.ok σ ∧
        env.dataSign σ = Except.ok ()) ∧
    (∀ env args res trace, WithdrawSlot env args = (Except.ok res, trace) →
      ∃ seq σ,
        trace = [env.wireBytes (SdkTx.sig (SdkTx.chainTx env.chainID 0
          (SdkTx.nonceTx seq [getSignerAct env args.From]
            (SdkTx.stakeTx (StakeTx.txWithdrawSlot args.Amount args.SlotId)))) (some σ))] ∧
        env.walletSignTx (env.hexToAddress args.From)
          (newSignableEthTx (env.signBytes (SdkTx.sig (SdkTx.chainTx env.chainID 0
            (SdkTx.nonceTx seq [getSignerAct env args.From]
              (SdkTx.stakeTx (StakeTx.txWithdrawSlot args.Amount args.SlotId)))) none))) 15 = Except.ok σ ∧
        env.dataSign σ = Except.ok ()) ∧
    (∀ env args res trace, CancelSlot env args = (Except.ok res, trace) →
      ∃ pk seq σ,
        env.getPubKey args.PubKey = Except.ok pk ∧
        trace = [env.wireBytes (SdkTx.sig (SdkTx.chainTx env.chainID 0
          (SdkTx.nonceTx seq [getSignerAct env args.From]
            (SdkTx.stakeTx (StakeTx.txCancelSlot pk args.SlotId)))) (some σ))] ∧
        env.walletSignTx (env.hexToAddress args.From)
          (newSignableEthTx (env.signBytes (SdkTx.sig (SdkTx.chainTx env.chainID 0
            (SdkTx.nonceTx seq [getSignerAct env args.From]
              (SdkTx.stakeTx (StakeTx.txCancelSlot pk args.SlotId)))) none))) 15 = Except.ok σ ∧
        env.dataSign σ = Except.ok ()) := by
  refine ⟨?_, ?_, ?_, ?_, ?_⟩
  · intro env args res trace h
    unfold DeclareCandidacy at h
    split at h
    · exact Except.noConfusion (congrArg Prod.fst h)
    · rename_i tx hp
      simp only [broadcastTx] at h
      cases (congrArg Prod.snd h).symm
      unfold prepareDeclareCandidacyTx at hp
      split at hp
      · exact Except.noConfusion hp
      · rename_i pk hpk
        obtain ⟨seq, σ, htx, hsig, hds, hne, _⟩ := wrapAndSignTx_ok hp
        subst htx
        exact ⟨pk, seq, σ, hpk, rfl, hsig, hds⟩
  · intro env args res trace h
    unfold ProposeSlot at h
    split at h
    · exact Except.noConfusion (congrArg Prod.fst h)
    · rename_i tx hp
      simp only [broadcastTx] at h
      cases (congrArg Prod.snd h).symm
      unfold prepareProposeSlotTx at hp
      split at hp
      · exact Except.noConfusion hp
      · rename_i pk hpk
        obtain ⟨seq, σ, htx, hsig, hds, hne, _⟩ := wrapAndSignTx_ok hp
        subst htx
        exact ⟨pk, seq, σ, hpk, rfl, hsig, hds⟩
  · intro env args res trace h
    unfold AcceptSlot at h
    split at h
    · exact Except.noConfusion (congrArg Prod.fst h)
    · rename_i tx hp
      simp only [broadcastTx] at h
      cases (congrArg Prod.snd h).symm
      unfold prepareAcceptSlotTx at hp
      obtain ⟨seq, σ, htx, hsig, hds, hne, _⟩ := wrapAndSignTx_ok hp
      subst htx
      exact ⟨seq, σ, rfl, hsig, hds⟩
  · intro env args res trace h
    unfold WithdrawSlot at h
    split at h
    · exact Except.noConfusion (congrArg Prod.fst h)
    · rename_i tx hp
      simp only [broadcastTx] at h
      cases (congrArg Prod.snd h).symm
      unfold prepareWithdrawSlotTx at hp
      obtain ⟨seq, σ, htx, hsig, hds, hne, _⟩ := wrapAndSignTx_ok hp
      subst htx
      exact ⟨seq, σ, rfl, hsig, hds⟩
  · intro env args res trace h
    unfold CancelSlot at h
    split at h
    · exact Except.noConfusion (congrArg Prod.fst h)
    · rename_i tx hp
      simp only [broadcastTx] at h
      cases (congrArg Prod.snd h).symm
      unfold prepareCancelSlotTx at hp
      split at hp
      · exact Except.noConfusion hp
      · rename_i pk hpk
        obtain ⟨seq, σ, htx, hsig, hds, hne, _⟩ := wrapAndSignTx_ok hp
        subst htx
        exact ⟨pk, seq, σ, hpk, rfl, hsig, hds⟩

/-- C1 witness: each of the five submission methods, run against the
concrete succeeding environment, satisfies the broadcast-shape property. -/
theorem stake_submission_broadcast_bytes_witness :
    (DeclareCandidacy baseStakeEnv { Sequence := 1, From := "a", PubKey := "pk" } =
      (Except.ok { raw := 6 }, [[4]]) ∧
      ∃ pk seq σ,
        baseStakeEnv.getPubKey "pk" = Except.ok pk ∧
        [[(4 : Nat)]] = [baseStakeEnv.wireBytes (SdkTx.sig (SdkTx.chainTx baseStakeEnv.chainID 0
          (SdkTx.nonceTx seq [getSignerAct baseStakeEnv "a"]
            (SdkTx.stakeTx (StakeTx.txDeclare pk)))) (some σ))] ∧
        baseStakeEnv.walletSignTx (baseStakeEnv.hexToAddress "a")
          (newSignableEthTx (baseStakeEnv.signBytes (SdkTx.sig (SdkTx.chainTx baseStakeEnv.chainID 0
            (SdkTx.nonceTx seq [getSignerAct baseStakeEnv "a"]
              (SdkTx.stakeTx (StakeTx.txDeclare pk)))) none))) 15 = Except.ok σ ∧
        baseStakeEnv.dataSign σ = Except.ok ()) ∧
    (AcceptSlot baseStakeEnv { Sequence := 1, From := "a", Amount := 2, SlotId := "s" } =
      (Except.ok { raw := 6 }, [[4]]) ∧
      ∃ seq σ,
        [[(4 : Nat)]] = [baseStakeEnv.wireBytes (SdkTx.sig (SdkTx.chainTx baseStakeEnv.chainID 0
          (SdkTx.nonceTx seq [getSignerAct baseStakeEnv "a"]
            (SdkTx.stakeTx (StakeTx.txAcceptSlot 2 "s")))) (some σ))] ∧
        baseStakeEnv.walletSignTx (baseStakeEnv.hexToAddress "a")
          (newSignableEthTx (baseStakeEnv.signBytes (SdkTx.sig (SdkTx.chainTx baseStakeEnv.chainID 0
            (SdkTx.nonceTx seq [getSignerAct baseStakeEnv "a"]
              (SdkTx.stakeTx (StakeTx.txAcceptSlot 2 "s")))) none))) 15 = Except.ok σ ∧
        baseStakeEnv.dataSign σ = Except.ok ()) :=
  ⟨⟨rfl, stake_submission_broadcast_bytes.1 baseStakeEnv
      { Sequence := 1, From := "a", PubKey := "pk" } { raw := 6 } [[4]] rfl⟩,
   ⟨rfl, stake_submission_broadcast_bytes.2.2.1 baseStakeEnv
      { Sequence := 1, From := "a", Amount := 2, SlotId := "s" } { raw := 6 } [[4]] rfl⟩⟩

/-- C2: when preparing a stake submission transaction fails, the method
returns the underlying error with a nil result and `BroadcastTxCommit` is
never invoked (the broadcast trace is empty). -/
theorem stake_submission_error_passthrough :
    (∀ env args e, prepareDeclareCandidacyTx env args = Except.error e →
      DeclareCandidacy env args = (Except.error e, [])) ∧
    (∀ env args e, prepareProposeSlotTx env args = Except.error e →
      ProposeSlot env args = (Except.error e, [])) ∧
    (∀ env args e, prepareAcceptSlotTx env args = Except.error e →
      AcceptSlot env args = (Except.error e, [])) ∧
    (∀ env args e, prepareWithdrawSlotTx env args = Except.error e →
      WithdrawSlot env args = (Except.error e, [])) ∧
    (∀ env args e, prepareCancelSlotTx env args = Except.error e →
      CancelSlot env args = (Except.error e, [])) := by
  refine ⟨?_, ?_, ?_, ?_, ?_⟩ <;>
    · intro env args e h
      first
      | (unfold DeclareCandidacy; rw [h])
      | (unfold ProposeSlot; rw [h])
      | (unfold AcceptSlot; rw [h])
      | (unfold WithdrawSlot; rw [h])
      | (unfold CancelSlot; rw [h])

/-- C2 witness: a failing public-key parse and an empty chain id each
propagate unchanged, with no broadcast call. -/
theorem stake_submission_error_passthrough_witness :
    (prepareDeclareCandidacyTx envBadPubKey { Sequence := 1, From := "a", PubKey := "zz" } =
      Except.error "invalid pubkey" ∧
     DeclareCandidacy envBadPubKey { Sequence := 1, From := "a", PubKey := "zz" } =
      (Except.error "invalid pubkey", [])) ∧
    (prepareAcceptSlotTx envNoChainID { Sequence := 1, From := "a", Amount := 2, SlotId := "s" } =
      Except.error "Empty chain id. Please wait for tendermint to finish starting up. " ∧
     AcceptSlot envNoChainID { Sequence := 1, From := "a", Amount := 2, SlotId := "s" } =
      (Except.error "Empty chain id. Please wait for tendermint to finish starting up. ", [])) :=
  ⟨⟨rfl, stake_submission_error_passthrough.1 envBadPubKey
      { Sequence := 1, From := "a", PubKey := "zz" } "invalid pubkey" rfl⟩,
   ⟨rfl, stake_submission_error_passthrough.2.2.1 envNoChainID
      { Sequence := 1, From := "a", Amount := 2, SlotId := "s" }
      "Empty chain id. Please wait for tendermint to finish starting up. " rfl⟩⟩

/-- C10 counterexample: with the maximal uint32 (4294967295) stored under the
nonce key and a request sequence of 0, the nonce sequence used in the
broadcast transaction is 0 (uint32 wrap-around), not the stored value
plus 1. -/
theorem stake_sequence_wraparound_counterexample :
    readBinaryUint32 [255, 255, 255, 255] = Except.ok 4294967295 ∧
    prepareAcceptSlotTx envMaxSeq { Sequence := 0, From := "a", Amount := 2, SlotId := "s" } =
      Except.ok (SdkTx.sig (SdkTx.chainTx "travis-1" 0
        (SdkTx.nonceTx 0 [{ raw := 2 }]
          (SdkTx.stakeTx (StakeTx.txAcceptSlot 2 "s")))) (some { raw := 5 })) ∧
    (0 : Nat) ≠ 4294967295 + 1 :=
  ⟨rfl, rfl, by decide⟩

/-- C10 (amended): when the request `Sequence` is 0 (the only uint32 value
with `sequence <= 0`), the nonce sequence used is the stored sequence under
the signer's nonce key plus 1 reduced modulo 2^32 (so 1 when nothing is
stored, and 0 when the stored sequence is 4294967295); when `Sequence` is
positive it is used unchanged. -/
theorem stake_sequence_defaulting :
    (∀ env tx addr wtx, wrapAndSignTx env tx addr 0 = Except.ok wtx →
      env.abciQuery "/key" (nonceQueryKey env addr) = Except.ok [] →
      nonceSeqOf wtx = some 1) ∧
    (∀ env tx addr wtx value stored, wrapAndSignTx env tx addr 0 = Except.ok wtx →
      env.abciQuery "/key" (nonceQueryKey env addr) = Except.ok value →
      readBinaryUint32 value = Except.ok stored →
      nonceSeqOf wtx = some ((stored + 1) % 4294967296)) ∧
    (∀ env tx addr sequence wtx, 0 < sequence →
      wrapAndSignTx env tx addr sequence = Except.ok wtx →
      nonceSeqOf wtx = some sequence) := by
  refine ⟨?_, ?_, ?_⟩
  · intro env tx addr wtx h hq
    obtain ⟨seq, σ, htx, -, -, -, hcase⟩ := wrapAndSignTx_ok h
    subst htx
    rcases hcase with ⟨h0, -⟩ | ⟨-, value, hv, hcase⟩
    · exact absurd h0 (by decide)
    · cases Except.ok.inj (hv.symm.trans hq)
      rcases hcase with ⟨-, h1⟩ | ⟨stored, hrd, -⟩
      · subst h1; rfl
      · exact Except.noConfusion hrd
  · intro env tx addr wtx value stored h hq hrd
    obtain ⟨seq, σ, htx, -, -, -, hcase⟩ := wrapAndSignTx_ok h
    subst htx
    rcases hcase with ⟨h0, -⟩ | ⟨-, value1, hv, hcase⟩
    · exact absurd h0 (by decide)
    · cases Except.ok.inj (hv.symm.trans hq)
      rcases hcase with ⟨hnil, -⟩ | ⟨stored1, hrd1, hseq⟩
      · subst hnil; exact Except.noConfusion hrd
      · cases Except.ok.inj (hrd1.symm.trans hrd)
        subst hseq; rfl
  · intro env tx addr sequence wtx hpos h
    obtain ⟨seq, σ, htx, -, -, -, hcase⟩ := wrapAndSignTx_ok h
    subst htx
    rcases hcase with ⟨-, hseq⟩ | ⟨h0, -⟩
    · subst hseq; rfl
    · exact absurd h0 (by omega)

/-- C10 witness: empty store gives sequence 1, a stored maximal uint32 gives
sequence 0 (the modulus in action), and a positive request sequence (7) is
used unchanged. -/
theorem stake_sequence_defaulting_witness :
    (wrapAndSignTx baseStakeEnv (SdkTx.stakeTx (StakeTx.txAcceptSlot 2 "s")) "a" 0 =
      Except.ok (SdkTx.sig (SdkTx.chainTx "travis-1" 0
        (SdkTx.nonceTx 1 [{ raw := 2 }] (SdkTx.stakeTx (StakeTx.txAcceptSlot 2 "s"))))
        (some { raw := 5 })) ∧
      baseStakeEnv.abciQuery "/key" (nonceQueryKey baseStakeEnv "a") = Except.ok [] ∧
      nonceSeqOf (SdkTx.sig (SdkTx.chainTx "travis-1" 0
        (SdkTx.nonceTx 1 [{ raw := 2 }] (SdkTx.stakeTx (StakeTx.txAcceptSlot 2 "s"))))
        (some { raw := 5 })) = some 1) ∧
    (wrapAndSignTx envMaxSeq (SdkTx.stakeTx (StakeTx.txAcceptSlot 2 "s")) "a" 0 =
      Except.ok (SdkTx.sig (SdkTx.chainTx "travis-1" 0
        (SdkTx.nonceTx 0 [{ raw := 2 }] (SdkTx.stakeTx (StakeTx.txAcceptSlot 2 "s"))))
        (some { raw := 5 })) ∧
      nonceSeqOf (SdkTx.sig (SdkTx.chainTx "travis-1" 0
        (SdkTx.nonceTx 0 [{ raw := 2 }] (SdkTx.stakeTx (StakeTx.txAcceptSlot 2 "s"))))
        (some { raw := 5 })) = some ((4294967295 + 1) % 4294967296)) ∧
    (wrapAndSignTx baseStakeEnv (SdkTx.stakeTx (StakeTx.txAcceptSlot 2 "s")) "a" 7 =
      Except.ok (SdkTx.sig (SdkTx.chainTx "travis-1" 0
        (SdkTx.nonceTx 7 [{ raw := 2 }] (SdkTx.stakeTx (StakeTx.txAcceptSlot 2 "s"))))
        (some { raw := 5 })) ∧
      nonceSeqOf (SdkTx.sig (SdkTx.chainTx "travis-1" 0
        (SdkTx.nonceTx 7 [{ raw := 2 }] (SdkTx.stakeTx (StakeTx.txAcceptSlot 2 "s"))))
        (some { raw := 5 })) = some 7) :=
  ⟨⟨rfl, rfl, stake_sequence_defaulting.1 baseStakeEnv
      (SdkTx.stakeTx (StakeTx.txAcceptSlot 2 "s")) "a" _ rfl rfl⟩,
   ⟨rfl, stake_sequence_defaulting.2.1 envMaxSeq
      (SdkTx.stakeTx (StakeTx.txAcceptSlot 2 "s")) "a" _ [255, 255, 255, 255] 4294967295
      rfl rfl rfl⟩,
   ⟨rfl, stake_sequence_defaulting.2.2 baseStakeEnv
      (SdkTx.stakeTx (StakeTx.txAcceptSlot 2 "s")) "a" 7 _ (by decide) rfl⟩⟩

theorem getParsed_ok {α : Type} {env : StakeEnv} {path : String} {key : Bytes}
    {decode : Bytes → Except String α} {height : Nat} {h : Int} {a : α}
    (hok : getParsed env path key decode height = Except.ok (h, a)) :
    ∃ resp, env.abciQueryWithOptions path key (int64ofUint64 height) = (some resp, none) ∧
      h = resp.height ∧ resp.value ≠ [] ∧ decode resp.value = Except.ok a := by
  rcases hq : env.abciQueryWithOptions path key (int64ofUint64 height) with ⟨o, err⟩
  simp only [getParsed, get, hq] at hok
  cases o with
  | none =>
      cases err with
      | none => simp at hok
      | some e => simp at hok
  | some resp =>
      cases err with
      | some e => simp at hok
      | none =>
          simp only [Option.getD] at hok
          split at hok
          · exact Except.noConfusion hok
          · rename_i hlen
            split at hok
            · exact Except.noConfusion hok
            · rename_i a1 hdec
              injection Except.ok.inj hok with h1 h2
              subst h1
              subst h2
              exact ⟨resp, rfl, rfl, fun hnil => hlen (by rw [hnil]; rfl), hdec⟩

theorem getParsed_noData {α : Type} {env : StakeEnv} {path : String} {key : Bytes}
    {decode : Bytes → Except String α} {height : Nat} {resp : AbciResponse}
    (hq : env.abciQueryWithOptions path key (int64ofUint64 height) = (some resp, none))
    (hv : resp.value = []) :
    getParsed env path key decode height = Except.error errNoData := by
  simp [getParsed, get, hq, hv]

/-- C5: every stake query method that succeeds returns an envelope whose
`Height` is the block height reported in the ABCI query response and whose
`Data` is the payload decoded with go-wire from the response's value bytes. -/
theorem stake_query_envelope :
    (∀ env height r, QueryValidators env height = Except.ok r →
      ∃ resp, env.abciQueryWithOptions "/key"
          (env.prefixedKey env.stakeName env.candidatesPubKeysKey)
          (int64ofUint64 height) = (some resp, none) ∧
        r.height = resp.height ∧ env.decodePubKeys resp.value = Except.ok r.data) ∧
    (∀ env pubkey height r, QueryValidator env pubkey height = Except.ok r →
      ∃ pk resp, env.getPubKey pubkey = Except.ok pk ∧
        env.abciQueryWithOptions "/key"
          (env.prefixedKey env.stakeName (env.getCandidateKey pk))
          (int64ofUint64 height) = (some resp, none) ∧
        r.height = resp.height ∧ env.decodeCandidate resp.value = Except.ok r.data) ∧
    (∀ env address height r, QuerySlots env address height = Except.ok r →
      ∃ act resp, env.parseActor address = Except.ok act ∧
        env.abciQueryWithOptions "/key"
          (env.prefixedKey env.stakeName (env.getDelegatorBondsKey (env.chainAddr act)))
          (int64ofUint64 height) = (some resp, none) ∧
        r.height = resp.height ∧ env.decodePubKeys resp.value = Except.ok r.data) ∧
    (∀ env slotId height r, QuerySlot env slotId height = Except.ok r →
      ∃ resp, env.abciQueryWithOptions "/slot" (strBytes slotId)
          (int64ofUint64 height) = (some resp, none) ∧
        r.height = resp.height ∧ env.decodeSlot resp.value = Except.ok r.data) ∧
    (∀ env address height r, QueryDelegator env address height = Except.ok r →
      ∃ resp, env.abciQueryWithOptions "/delegator" (strBytes address)
          (int64ofUint64 height) = (some resp, none) ∧
        r.height = resp.height ∧ env.decodeSlotDelegates resp.value = Except.ok r.data) := by
  refine ⟨?_, ?_, ?_, ?_, ?_⟩
  · intro env height r h
    simp only [QueryValidators] at h
    split at h
    · exact Except.noConfusion h
    · rename_i p hp
      cases Except.ok.inj h
      obtain ⟨resp, hq, hh, -, hdec⟩ := getParsed_ok hp
      exact ⟨resp, hq, hh, hdec⟩
  · intro env pubkey height r h
    simp only [QueryValidator] at h
    split at h
    · exact Except.noConfusion h
    · rename_i pk hpk
      split at h
      · exact Except.noConfusion h
      · rename_i p hp
        cases Except.ok.inj h
        obtain ⟨resp, hq, hh, -, hdec⟩ := getParsed_ok hp
        exact ⟨pk, resp, hpk, hq, hh, hdec⟩
  · intro env address height r h
    simp only [QuerySlots] at h
    split at h
    · exact Except.noConfusion h
    · rename_i act hact
      split at h
      · exact Except.noConfusion h
      · rename_i p hp
        cases Except.ok.inj h
        obtain ⟨resp, hq, hh, -, hdec⟩ := getParsed_ok hp
        exact ⟨act, resp, hact, hq, hh, hdec⟩
  · intro env slotId height r h
    simp only [QuerySlot] at h
    split at h
    · exact Except.noConfusion h
    · rename_i p hp
      cases Except.ok.inj h
      obtain ⟨resp, hq, hh, -, hdec⟩ := getParsed_ok hp
      exact ⟨resp, hq, hh, hdec⟩
  · intro env address height r h
    simp only [QueryDelegator] at h
    split at h
    · exact Except.noConfusion h
    · rename_i p hp
      cases Except.ok.inj h
      obtain ⟨resp, hq, hh, -, hdec⟩ := getParsed_ok hp
      exact ⟨resp, hq, hh, hdec⟩

/-- C5 witness: `QueryValidators` and `QuerySlot` on the concrete environment
return height 12 (the response height) and the decoded payload. -/
theorem stake_query_envelope_witness :
    (QueryValidators baseStakeEnv 3 = Except.ok { height := 12, data := [] } ∧
      ∃ resp, baseStakeEnv.abciQueryWithOptions "/key"
          (baseStakeEnv.prefixedKey baseStakeEnv.stakeName baseStakeEnv.candidatesPubKeysKey)
          (int64ofUint64 3) = (some resp, none) ∧
        (12 : Int) = resp.height ∧
        baseStakeEnv.decodePubKeys resp.value = Except.ok []) ∧
    (QuerySlot baseStakeEnv "s" 4 = Except.ok { height := 12, data := { raw := 2 } } ∧
      ∃ resp, baseStakeEnv.abciQueryWithOptions "/slot" (strBytes "s")
          (int64ofUint64 4) = (some resp, none) ∧
        (12 : Int) = resp.height ∧
        baseStakeEnv.decodeSlot resp.value = Except.ok { raw := 2 }) :=
  ⟨⟨rfl, stake_query_envelope.1 baseStakeEnv 3 { height := 12, data := [] } rfl⟩,
   ⟨rfl, stake_query_envelope.2.2.2.1 baseStakeEnv "s" 4 { height := 12, data := { raw := 2 } } rfl⟩⟩

/-- C6: every stake query method returns a nil result and the no-data error
when the ABCI query succeeds but the stored value is empty. -/
theorem stake_query_no_data :
    (∀ env height resp, env.abciQueryWithOptions "/key"
        (env.prefixedKey env.stakeName env.candidatesPubKeysKey)
        (int64ofUint64 height) = (some resp, none) →
      resp.value = [] → QueryValidators env height = Except.error errNoData) ∧
    (∀ env pubkey height pk resp, env.getPubKey pubkey = Except.ok pk →
      env.abciQueryWithOptions "/key"
        (env.prefixedKey env.stakeName (env.getCandidateKey pk))
        (int64ofUint64 height) = (some resp, none) →
      resp.value = [] → QueryValidator env pubkey height = Except.error errNoData) ∧
    (∀ env address height act resp, env.parseActor address = Except.ok act →
      env.abciQueryWithOptions "/key"
        (env.prefixedKey env.stakeName (env.getDelegatorBondsKey (env.chainAddr act)))
        (int64ofUint64 height) = (some resp, none) →
      resp.value = [] → QuerySlots env address height = Except.error errNoData) ∧
    (∀ env slotId height resp, env.abciQueryWithOptions "/slot" (strBytes slotId)
        (int64ofUint64 height) = (some resp, none) →
      resp.value = [] → QuerySlot env slotId height = Except.error errNoData) ∧
    (∀ env address height resp, env.abciQueryWithOptions "/delegator" (strBytes address)
        (int64ofUint64 height) = (some resp, none) →
      resp.value = [] → QueryDelegator env address height = Except.error errNoData) := by
  refine ⟨?_, ?_, ?_, ?_, ?_⟩
  · intro env height resp hq hv
    simp only [QueryValidators, getParsed_noData hq hv]
  · intro env pubkey height pk resp hpk hq hv
    simp only [QueryValidator, hpk, getParsed_noData hq hv]
  · intro env address height act resp hact hq hv
    simp only [QuerySlots, hact, getParsed_noData hq hv]
  · intro env slotId height resp hq hv
    simp only [QuerySlot, getParsed_noData hq hv]
  · intro env address height resp hq hv
    simp only [QueryDelegator, getParsed_noData hq hv]

/-- C6 witness: against an environment whose store holds an empty value, the
query methods report the no-data error, never an empty payload. -/
theorem stake_query_no_data_witness :
    (envEmptyValue.abciQueryWithOptions "/key"
        (envEmptyValue.prefixedKey envEmptyValue.stakeName envEmptyValue.candidatesPubKeysKey)
        (int64ofUint64 2) = (some { value := [], height := 9 }, none) ∧
      QueryValidators envEmptyValue 2 = Except.error errNoData) ∧
    (envEmptyValue.abciQueryWithOptions "/slot" (strBytes "s")
        (int64ofUint64 2) = (some { value := [], height := 9 }, none) ∧
      QuerySlot envEmptyValue "s" 2 = Except.error errNoData) :=
  ⟨⟨rfl, stake_query_no_data.1 envEmptyValue 2 { value := [], height := 9 } rfl rfl⟩,
   ⟨rfl, stake_query_no_data.2.2.2.1 envEmptyValue "s" 2 { value := [], height := 9 } rfl rfl⟩⟩

theorem getTransaction_not_panicked (env : StakeEnv) (hash : String) :
    GetTransaction env hash ≠ GoStep.panicked := by
  unfold GetTransaction
  split
  · exact fun h => GoStep.noConfusion h
  · split
    · exact fun h => GoStep.noConfusion h
    · exact fun h => GoStep.noConfusion h

/-- C7 counterexample: at index -1 (an invalid position) with a fetched block
holding one transaction, `GetTransactionFromBlock` panics on the slice access
`block.Block.Txs[index]` instead of returning a nil result and an error. -/
theorem getTransactionFromBlock_negative_index_counterexample :
    GetTransactionFromBlock baseStakeEnv 5 (-1) = GoStep.panicked ∧
    (GetTransactionFromBlock baseStakeEnv 5 (-1)).isErr = false :=
  ⟨rfl, rfl⟩

/-- C7 (amended): when the block fetch fails the error is returned; whenever
`index >= NumTxs` the method returns a nil result and an error; and for a
nonnegative index on a well-formed block (`NumTxs` equal to the length of the
transaction list) the method never reads out of bounds.  A negative index,
however, panics on the slice access rather than returning an error. -/
theorem getTransactionFromBlock_bounds :
    (∀ env height index e, env.blockAt (int64ofUint64 height) = Except.error e →
      GetTransactionFromBlock env height index = GoStep.err e) ∧
    (∀ env height index block, env.blockAt (int64ofUint64 height) = Except.ok block →
      block.block.numTxs ≤ index →
      GetTransactionFromBlock env height index = GoStep.err (noTxMsg height index)) ∧
    (∀ env height index block, env.blockAt (int64ofUint64 height) = Except.ok block →
      0 ≤ index →
      block.block.numTxs = Int.ofNat block.block.txs.length →
      GetTransactionFromBlock env height index ≠ GoStep.panicked) := by
  refine ⟨?_, ?_, ?_⟩
  · intro env height index e hb
    unfold GetTransactionFromBlock
    rw [hb]
  · intro env height index block hb hle
    unfold GetTransactionFromBlock
    rw [hb]
    simp only [if_pos hle]
  · intro env height index block hb hnn hwf
    unfold GetTransactionFromBlock
    rw [hb]
    by_cases hle : block.block.numTxs ≤ index
    · simp only [if_pos hle]
      exact fun h => GoStep.noConfusion h
    · have hle' : index < Int.ofNat block.block.txs.length := by
        rw [← hwf]
        exact lt_of_not_le hle
      have hlt : index.toNat < block.block.txs.length := (Int.toNat_lt hnn).mpr hle'
      have hidx : listIndexInt block.block.txs index =
          some (block.block.txs.get ⟨index.toNat, hlt⟩) := by
        unfold listIndexInt
        rw [if_pos hnn]
        exact List.get?_eq_get hlt
      simp only [if_neg hle, hidx]
      exact getTransaction_not_panicked env _

/-- C7 witness: a failed block fetch returns its error; index 1 on a
one-transaction block returns the no-transaction error; index 0 on that block
does not panic. -/
theorem getTransactionFromBlock_bounds_witness :
    (envBlockErr.blockAt (int64ofUint64 5) = Except.error "no block" ∧
      GetTransactionFromBlock envBlockErr 5 0 = GoStep.err "no block") ∧
    (baseStakeEnv.blockAt (int64ofUint64 5) =
        Except.ok { block := { numTxs := 1, txs := [[0]] } } ∧
      GetTransactionFromBlock baseStakeEnv 5 1 = GoStep.err (noTxMsg 5 1)) ∧
    (GetTransactionFromBlock baseStakeEnv 5 0 ≠ GoStep.panicked) :=
  ⟨⟨rfl, getTransactionFromBlock_bounds.1 envBlockErr 5 0 "no block" rfl⟩,
   ⟨rfl, getTransactionFromBlock_bounds.2.1 baseStakeEnv 5 1
      { block := { numTxs := 1, txs := [[0]] } } rfl (by decide)⟩,
   getTransactionFromBlock_bounds.2.2 baseStakeEnv 5 0
      { block := { numTxs := 1, txs := [[0]] } } rfl (by decide) (by decide)⟩

theorem initTendermint_ok_exists {env : InitEnv} {fs fs1 : FileSystem}
    (h : initTendermint env fs = RunResult.ok fs1) :
    (∃ c, lookupFS fs1 env.privValidatorFile = some c) ∧
    (∃ c, lookupFS fs1 env.genesisFile = some c) := by
  cases hpc : lookupFS fs env.privValidatorFile with
  | some pc =>
      simp only [initTendermint, hpc] at h
      split at h
      · rename_i gc hgc
        cases RunResult.ok.inj h
        exact ⟨⟨pc, hpc⟩, ⟨gc, hgc⟩⟩
      · rename_i hgc
        split at h
        · exact RunResult.noConfusion h
        · rename_i c hc
          cases RunResult.ok.inj h
          constructor
          · rw [lookupFS_writeFS]
            by_cases hgp : env.genesisFile = env.privValidatorFile
            · rw [if_pos hgp]; exact ⟨c, rfl⟩
            · rw [if_neg hgp]; exact ⟨pc, hpc⟩
          · exact ⟨c, by rw [lookupFS_writeFS, if_pos rfl]⟩
  | none =>
      simp only [initTendermint, hpc, lookupFS_writeFS] at h
      by_cases hpg : env.privValidatorFile = env.genesisFile
      · simp only [if_pos hpg] at h
        cases RunResult.ok.inj h
        constructor
        · exact ⟨env.savePrivValidator env.genPrivValidator,
            by rw [lookupFS_writeFS, if_pos rfl]⟩
        · exact ⟨env.savePrivValidator env.genPrivValidator,
            by rw [lookupFS_writeFS, if_pos hpg]⟩
      · simp only [if_neg hpg] at h
        split at h
        · rename_i gc hgc
          cases RunResult.ok.inj h
          constructor
          · exact ⟨env.savePrivValidator env.genPrivValidator,
              by rw [lookupFS_writeFS, if_pos rfl]⟩
          · exact ⟨gc, by rw [lookupFS_writeFS, if_neg hpg]; exact hgc⟩
        · rename_i hgc
          split at h
          · exact RunResult.noConfusion h
          · rename_i c hc
            cases RunResult.ok.inj h
            constructor
            · refine ⟨env.savePrivValidator env.genPrivValidator, ?_⟩
              rw [lookupFS_writeFS, if_neg (fun hh => hpg hh.symm),
                lookupFS_writeFS, if_pos rfl]
            · exact ⟨c, by rw [lookupFS_writeFS, if_pos rfl]⟩

/-- C9: the init command preserves existing state: an existing private
validator file is kept (its content is unchanged), an existing genesis file
is left unchanged, and a second run of the tendermint initialization on the
state produced by a first successful run changes nothing. -/
theorem initTendermint_preserves_existing :
    (∀ env fs fs1, lookupFS fs env.privValidatorFile ≠ none →
      initTendermint env fs = RunResult.ok fs1 →
      lookupFS fs1 env.privValidatorFile = lookupFS fs env.privValidatorFile) ∧
    (∀ env fs fs1, lookupFS fs env.genesisFile ≠ none →
      initTendermint env fs = RunResult.ok fs1 →
      lookupFS fs1 env.genesisFile = lookupFS fs env.genesisFile) ∧
    (∀ env fs fs1, initTendermint env fs = RunResult.ok fs1 →
      initTendermint env fs1 = RunResult.ok fs1) := by
  refine ⟨?_, ?_, ?_⟩
  · intro env fs fs1 hne h
    cases hpc : lookupFS fs env.privValidatorFile with
    | none => exact absurd hpc hne
    | some pc =>
        simp only [initTendermint, hpc] at h
        split at h
        · cases RunResult.ok.inj h
          exact hpc
        · rename_i hgc
          split at h
          · exact RunResult.noConfusion h
          · rename_i c hc
            cases RunResult.ok.inj h
            rw [lookupFS_writeFS]
            by_cases hgp : env.genesisFile = env.privValidatorFile
            · rw [hgp] at hgc
              exact absurd hgc hne
            · rw [if_neg hgp]
              exact hpc
  · intro env fs fs1 hne h
    obtain ⟨gc, hgc⟩ := Option.ne_none_iff_exists'.mp hne
    cases hpc : lookupFS fs env.privValidatorFile with
    | some pc =>
        simp only [initTendermint, hpc, hgc] at h
        cases RunResult.ok.inj h
        rfl
    | none =>
        simp only [initTendermint, hpc, lookupFS_writeFS] at h
        by_cases hpg : env.privValidatorFile = env.genesisFile
        · rw [hpg] at hpc
          rw [hpc] at hgc
          exact Option.noConfusion hgc
        · simp only [if_neg hpg, hgc] at h
          cases RunResult.ok.inj h
          rw [lookupFS_writeFS, if_neg hpg]
  · intro env fs fs1 h
    obtain ⟨⟨pc, hpc⟩, ⟨gc, hgc⟩⟩ := initTendermint_ok_exists h
    simp only [initTendermint, hpc, hgc]

/-- C9 witness: a state already holding both files passes through unchanged,
and a second run on the output of a fresh first run is a no-op. -/
theorem initTendermint_preserves_existing_witness :
    (lookupFS [("priv_validator.json", "pv"), ("genesis.json", "gen")]
        baseInitEnv.privValidatorFile ≠ none ∧
      initTendermint baseInitEnv [("priv_validator.json", "pv"), ("genesis.json", "gen")] =
        RunResult.ok [("priv_validator.json", "pv"), ("genesis.json", "gen")] ∧
      lookupFS [("priv_validator.json", "pv"), ("genesis.json", "gen")]
          baseInitEnv.privValidatorFile =
        lookupFS [("priv_validator.json", "pv"), ("genesis.json", "gen")]
          baseInitEnv.privValidatorFile) ∧
    (initTendermint baseInitEnv [] =
      RunResult.ok [("genesis.json", "gen:local"), ("priv_validator.json", "pv:11")] ∧
     initTendermint baseInitEnv
        [("genesis.json", "gen:local"), ("priv_validator.json", "pv:11")] =
      RunResult.ok [("genesis.json", "gen:local"), ("priv_validator.json", "pv:11")]) :=
  ⟨⟨by decide, rfl,
    initTendermint_preserves_existing.1 baseInitEnv
      [("priv_validator.json", "pv"), ("genesis.json", "gen")]
      [("priv_validator.json", "pv"), ("genesis.json", "gen")] (by decide) rfl⟩,
   ⟨rfl,
    initTendermint_preserves_existing.2.2 baseInitEnv []
      [("genesis.json", "gen:local"), ("priv_validator.json", "pv:11")] rfl⟩⟩

/-- C4: the init command registers a "chain-id" flag defaulting to "local",
and when no genesis file exists the generated genesis document has the flag's
value as its ChainID and exactly one validator, carrying the private
validator's public key with power 10. -/
theorem init_chain_id_flag_and_genesis :
    flagDefault GetInitCmd.flags FlagChainID = some "local" ∧
    (∀ c pv, (mkGenesisDoc c pv).chainID = c ∧
      (mkGenesisDoc c pv).validators = [{ pubKey := pv.pubKey, power := 10 }]) ∧
    (∀ env fs fs1, env.privValidatorFile ≠ env.genesisFile →
      lookupFS fs env.genesisFile = none →
      initTendermint env fs = RunResult.ok fs1 →
      ∃ content, lookupFS fs1 env.genesisFile = some content ∧
        env.saveGenDoc (mkGenesisDoc env.flagChainID (effectivePrivValidator env fs)) =
          Except.ok content) := by
  refine ⟨rfl, fun c pv => ⟨rfl, rfl⟩, ?_⟩
  intro env fs fs1 hne hgc h
  cases hpc : lookupFS fs env.privValidatorFile with
  | some pc =>
      simp only [initTendermint, hpc, hgc] at h
      split at h
      · exact RunResult.noConfusion h
      · rename_i content hc
        cases RunResult.ok.inj h
        exact ⟨content, by rw [lookupFS_writeFS, if_pos rfl], hc⟩
  | none =>
      simp only [initTendermint, hpc, lookupFS_writeFS,
        if_neg hne, hgc] at h
      split at h
      · exact RunResult.noConfusion h
      · rename_i content hc
        cases RunResult.ok.inj h
        exact ⟨content, by rw [lookupFS_writeFS, if_pos rfl], hc⟩

/-- C4 witness: the default is "local" and a fresh run writes a genesis file
serialized from the document with ChainID "local" and the generated
validator with power 10. -/
theorem init_chain_id_flag_and_genesis_witness :
    (mkGenesisDoc "local" { pubKey := { raw := 11 }, secret := 1 }).chainID = "local" ∧
    (mkGenesisDoc "local" { pubKey := { raw := 11 }, secret := 1 }).validators =
      [{ pubKey := { raw := 11 }, power := 10 }] ∧
    baseInitEnv.privValidatorFile ≠ baseInitEnv.genesisFile ∧
    initTendermint baseInitEnv [] =
      RunResult.ok [("genesis.json", "gen:local"), ("priv_validator.json", "pv:11")] ∧
    ∃ content,
      lookupFS [("genesis.json", "gen:local"), ("priv_validator.json", "pv:11")]
        baseInitEnv.genesisFile = some content ∧
      baseInitEnv.saveGenDoc
        (mkGenesisDoc baseInitEnv.flagChainID (effectivePrivValidator baseInitEnv [])) =
        Except.ok content :=
  ⟨(init_chain_id_flag_and_genesis.2.1 "local" { pubKey := { raw := 11 }, secret := 1 }).1,
   (init_chain_id_flag_and_genesis.2.1 "local" { pubKey := { raw := 11 }, secret := 1 }).2,
   by decide, rfl,
   init_chain_id_flag_and_genesis.2.2 baseInitEnv []
     [("genesis.json", "gen:local"), ("priv_validator.json", "pv:11")]
     (by decide) rfl rfl⟩

/-- C3: a single run of the init command from a fresh state, with every
external call succeeding, creates the private validator file, the tendermint
genesis document, the genesis execution-layer database (the genesis block
recorded in the chaindata LevelDB), and the one fixed keystore file for
address 7eff122b94897ea5b0e2a9abf47b86337fafebdc. -/
theorem init_creates_artifacts
    (env : InitEnv) (st : NodeState) (gc : String) (g : EthGenesis) (hash : Nat)
    (hpv : lookupFS st.files env.privValidatorFile = none)
    (hgen : lookupFS st.files env.genesisFile = none)
    (hpgne : env.privValidatorFile ≠ env.genesisFile)
    (hsave : env.saveGenDoc (mkGenesisDoc env.flagChainID env.genPrivValidator) =
      Except.ok gc)
    (hparse : env.parseGenesisOrDefault env.genesisPath = Except.ok g)
    (hldb : env.ldbOpenOk (filepathJoin env.dataDir "vm/chaindata") = true)
    (hsetup : env.setupGenesisBlock
      { g with config := { g.config with
          chainId := env.ethChainId % 18446744073709551616 } } = Except.ok hash)
    (hmkdir : env.mkdirOk (filepathJoin env.dataDir "keystore") = true)
    (hcreate : env.createOk
      (filepathJoin (filepathJoin env.dataDir "keystore") keystoreFileName) = true)
    (hclose : env.closeErr
      (filepathJoin (filepathJoin env.dataDir "keystore") keystoreFileName) = none)
    (hkgne : filepathJoin (filepathJoin env.dataDir "keystore") keystoreFileName ≠
      env.genesisFile)
    (hkpne : filepathJoin (filepathJoin env.dataDir "keystore") keystoreFileName ≠
      env.privValidatorFile) :
    ∃ st1, initFiles env st = RunResult.ok st1 ∧
      lookupFS st1.files env.privValidatorFile =
        some (env.savePrivValidator env.genPrivValidator) ∧
      lookupFS st1.files env.genesisFile = some gc ∧
      lookupAssoc st1.chainData (filepathJoin env.dataDir "vm/chaindata") =
        some ({ g with config := { g.config with
          chainId := env.ethChainId % 18446744073709551616 } }, hash) ∧
      lookupFS st1.files
          (filepathJoin (filepathJoin env.dataDir "keystore") keystoreFileName) =
        some keystoreFileContent ∧
      keystoreFilesMap = [(keystoreFileName, keystoreFileContent)] ∧
      keystoreFileName =
        "UTC--2016-10-21T22-30-03.071787745Z--" ++
          "7eff122b94897ea5b0e2a9abf47b86337fafebdc" := by
  have heff : effectivePrivValidator env st.files = env.genPrivValidator := by
    simp [effectivePrivValidator, hpv]
  have htm : initTendermint env st.files = RunResult.ok
      (writeFS (writeFS st.files env.privValidatorFile
        (env.savePrivValidator env.genPrivValidator)) env.genesisFile gc) := by
    simp only [initTendermint, hpv, lookupFS_writeFS, if_neg hpgne, hgen, heff, hsave]
  have hrun : initFiles env st = RunResult.ok
      { files := writeFS (writeFS (writeFS st.files env.privValidatorFile
            (env.savePrivValidator env.genPrivValidator)) env.genesisFile gc)
          (filepathJoin (filepathJoin env.dataDir "keystore") keystoreFileName)
          keystoreFileContent
        chainData := (filepathJoin env.dataDir "vm/chaindata",
          ({ g with config := { g.config with
              chainId := env.ethChainId % 18446744073709551616 } }, hash)) ::
            st.chainData } := by
    simp [initFiles, htm, initEthermint, hparse, hldb, hsetup, hmkdir,
      keystoreFilesMap, keystoreLoop, hcreate, hclose]
  refine ⟨_, hrun, ?_, ?_, ?_, ?_, rfl, rfl⟩
  · rw [lookupFS_writeFS, if_neg hkpne, lookupFS_writeFS,
      if_neg (fun hh => hpgne hh.symm), lookupFS_writeFS, if_pos rfl]
  · rw [lookupFS_writeFS, if_neg hkgne, lookupFS_writeFS, if_pos rfl]
  · simp [lookupAssoc]
  · rw [lookupFS_writeFS, if_pos rfl]

/-- C3 witness: the concrete init environment run on the empty state yields
all four artifacts. -/
theorem init_creates_artifacts_witness :
    ∃ st1, initFiles baseInitEnv { files := [], chainData := [] } = RunResult.ok st1 ∧
      lookupFS st1.files baseInitEnv.privValidatorFile =
        some (baseInitEnv.savePrivValidator baseInitEnv.genPrivValidator) ∧
      lookupFS st1.files baseInitEnv.genesisFile = some "gen:local" ∧
      lookupAssoc st1.chainData (filepathJoin baseInitEnv.dataDir "vm/chaindata") =
        some ({ config := { chainId := 15 }, rest := 0 }, 99) ∧
      lookupFS st1.files
          (filepathJoin (filepathJoin baseInitEnv.dataDir "keystore") keystoreFileName) =
        some keystoreFileContent ∧
      keystoreFilesMap = [(keystoreFileName, keystoreFileContent)] ∧
      keystoreFileName =
        "UTC--2016-10-21T22-30-03.071787745Z--" ++
          "7eff122b94897ea5b0e2a9abf47b86337fafebdc" :=
  init_creates_artifacts baseInitEnv { files := [], chainData := [] } "gen:local"
    { config := { chainId := 1 }, rest := 0 } 99
    rfl rfl (by decide) rfl rfl rfl rfl rfl rfl rfl (by decide) (by decide)

end Travis
